import Mathlib

set_option maxRecDepth 8000

/-
A shallow embedding of `src/knowledge-search.js`: a browser-side client that
collects a text query, POSTs it to a webhook endpoint, and renders the
returned answer, optional metadata, and optional source links.

The DOM handles of the page are modelled by the record `UiDom`: one field per
DOM property the script writes (`style.display` values kept as the literal
strings "block" / "none", `textContent` / `innerHTML` values kept as strings).
The loosely typed JSON response is modelled by `SearchResponse` with every
field optional.  JavaScript truthiness on string-valued fields (where both
`undefined` and the empty string are falsy) is captured by `jsTruthy` and the
`a || b` idiom by `jsOr`.  `fetch` is modelled by passing the outcome of the
network call (`FetchOutcome`) to `handleSearch` as a parameter; the single
`await` point of the script makes this faithful.  Host functions that the
script calls are modelled as follows: `new Date(ts).toLocaleString` is an
arbitrary formatting parameter `fmtDate` (no claim depends on its output),
`Number.prototype.toFixed(2)` is `toFixed2` over ℚ (round to nearest
hundredth, ties away from zero on the magnitude, per the ECMAScript
specification of toFixed), and the `div.textContent / div.innerHTML`
escaping helper is `escapeHtml` (HTML text-node serialization escapes
exactly the characters &, < and >).
-/

namespace KnowledgeSearch

/-- A JavaScript `Error` / `DOMException` value: the two properties the
script reads, `name` and `message`. -/
structure JsError where
  name : String
  message : String
deriving DecidableEq, Repr

/-- JavaScript truthiness of an optional string field: `undefined` (here
`none`) and the empty string are falsy. -/
def jsTruthy : Option String → Bool
  | none => false
  | some s => !(s == "")

/-- The JavaScript idiom `a || b` on an optional string `a` with fallback
`b`: yields `a` when truthy, otherwise `b`. -/
def jsOr (a : Option String) (b : String) : String :=
  match a with
  | some s => if s = "" then b else s
  | none => b

/-- Helper: does `needle` occur as a contiguous run inside `hay`
(list-of-characters form)? -/
def subList (needle : List Char) : List Char → Bool
  | [] => needle.isEmpty
  | c :: rest => needle.isPrefixOf (c :: rest) || subList needle rest

/-- JavaScript `String.prototype.includes`: substring containment. -/
def strIncludes (s target : String) : Bool :=
  subList target.data s.data

/-- JavaScript `Array.prototype.join` with the empty separator, used for
`items.join('')` and the generated source-list markup. -/
def joinAll : List String → String
  | [] => ""
  | s :: rest => s ++ joinAll rest

/-- The `API_CONFIG` object: endpoint, timeout in milliseconds, and the
(nominal, unused) retry count. -/
structure ApiConfig where
  endpoint : String
  timeout : Nat
  maxRetries : Nat
deriving DecidableEq, Repr

/-- The configuration literal at the top of the script. -/
def API_CONFIG : ApiConfig :=
  { endpoint := "http://localhost:5678/webhook/ai-search"
    timeout := 30000
    maxRetries := 1 }

/-- One entry of the `sources` array of a response.  Every field is
externally supplied and optional. -/
structure Source where
  name : Option String
  title : Option String
  url : Option String
  link : Option String
deriving DecidableEq, Repr

/-- The `metadata` object of a response.  `fileCount` is interpolated into a
template literal, which stringifies whatever JSON value was supplied, so it
is modelled by the string form of that value; `timestamp` is a string fed to
the date formatter; `processingTime` must be a number for `.toFixed(2)` and
is modelled as a rational. -/
structure Metadata where
  fileCount : Option String
  timestamp : Option String
  processingTime : Option ℚ
deriving DecidableEq, Repr

/-- The decoded JSON response body, every field optional. -/
structure SearchResponse where
  answer : Option String
  message : Option String
  metadata : Option Metadata
  sources : Option (List Source)
deriving DecidableEq, Repr

/-- The DOM properties the script writes: one field per element property.
`style.display` values are kept verbatim ("block" / "none"). -/
structure UiDom where
  searchBtnDisabled : Bool
  btnTextContent : String
  resultSectionDisplay : String
  loadingStateDisplay : String
  resultContentDisplay : String
  errorContentDisplay : String
  answerTextContent : String
  metadataInner : String
  sourcesContainerDisplay : String
  sourcesListInner : String
  errorMessageContent : String
deriving DecidableEq, Repr

/-- A representative initial presentation state (the page before any
search): button enabled with its idle label, all regions hidden, all text
regions empty. -/
def initialDom : UiDom :=
  { searchBtnDisabled := false
    btnTextContent := "検索"
    resultSectionDisplay := "none"
    loadingStateDisplay := "none"
    resultContentDisplay := "none"
    errorContentDisplay := "none"
    answerTextContent := ""
    metadataInner := ""
    sourcesContainerDisplay := "none"
    sourcesListInner := ""
    errorMessageContent := "" }

/-- `showLoading`: disable and relabel the button, show the result section
with the loading indicator, hide result and error content.  (The deferred
`scrollIntoView` is a pure view effect and is not part of the state.) -/
def showLoading (d : UiDom) : UiDom :=
  { d with
    searchBtnDisabled := true
    btnTextContent := "検索中..."
    resultSectionDisplay := "block"
    loadingStateDisplay := "block"
    resultContentDisplay := "none"
    errorContentDisplay := "none" }

/-- `restoreButtonState`: re-enable the button and restore its idle label. -/
def restoreButtonState (d : UiDom) : UiDom :=
  { d with searchBtnDisabled := false, btnTextContent := "検索" }

/-- One character of `escapeHtml`: HTML text-node serialization replaces
the characters &, < and > (and nothing else; in particular quotes are kept). -/
def escapeChar (c : Char) : String :=
  if c = '&' then "&amp;"
  else if c = '<' then "&lt;"
  else if c = '>' then "&gt;"
  else String.singleton c

/-- `escapeHtml`: the `div.textContent = text; return div.innerHTML` helper.
Setting `textContent` creates a text node and `innerHTML` serializes it,
escaping exactly &, < and >. -/
def escapeHtml (text : String) : String :=
  joinAll (text.data.map escapeChar)

/-- Two-digit decimal field with a leading zero below 10 (the fractional
part produced by `toFixed(2)`). -/
def pad2 (k : Nat) : String :=
  (if k < 10 then "0" else "") ++ toString k

/-- `toFixed(2)` on a non-negative rational: round `q` to the nearest
hundredth (ties upward) and print with exactly two digits after the point. -/
def toFixed2Abs (q : ℚ) : String :=
  toString ((Int.floor (q * 100 + 1 / 2)).toNat / 100) ++ "." ++
    pad2 ((Int.floor (q * 100 + 1 / 2)).toNat % 100)

/-- JavaScript `Number.prototype.toFixed(2)` modelled over ℚ: the sign is
taken first, then the magnitude is rounded to the nearest hundredth (ties
away from zero) and printed with exactly two digits after the point. -/
def toFixed2 (q : ℚ) : String :=
  if q < 0 then "-" ++ toFixed2Abs (-q) else toFixed2Abs q

/-- The file-count metadata item of `displayMetadata`. -/
def fileCountItem (v : String) : String :=
  "<div class=\"metadata-item\">📄 " ++ v ++ "件のファイルを参照</div>"

/-- The timestamp metadata item of `displayMetadata` (already formatted). -/
def timestampItem (t : String) : String :=
  "<div class=\"metadata-item\">⏱️ " ++ t ++ "</div>"

/-- The processing-time metadata item of `displayMetadata`. -/
def processingTimeItem (p : ℚ) : String :=
  "<div class=\"metadata-item\">⚡ " ++ toFixed2 p ++ "秒</div>"

/-- The `items` array built by `displayMetadata`, in push order: file count
when the field is not `undefined`, timestamp when truthy (formatted through
the host date formatter `fmtDate`), processing time when not `undefined`. -/
def metadataItems (fmtDate : String → String) (md : Metadata) : List String :=
  (match md.fileCount with
   | some v => [fileCountItem v]
   | none => []) ++
  (match md.timestamp with
   | some t => if t = "" then [] else [timestampItem (fmtDate t)]
   | none => []) ++
  (match md.processingTime with
   | some p => [processingTimeItem p]
   | none => [])

/-- `displayMetadata`: build the items and overwrite the metadata region
only when at least one item was produced. -/
def displayMetadata (fmtDate : String → String) (md : Metadata) (d : UiDom) : UiDom :=
  let items := metadataItems fmtDate md
  if items.length > 0 then { d with metadataInner := joinAll items } else d

/-- The visible label of a source entry at 0-based `index`:
`source.name || source.title || (参照 followed by the 1-based index)`. -/
def sourceLabel (index : Nat) (source : Source) : String :=
  jsOr source.name (jsOr source.title ("参照 " ++ toString (index + 1)))

/-- The anchor target of a source entry: `source.url || source.link || '#'`. -/
def sourceHref (source : Source) : String :=
  jsOr source.url (jsOr source.link "#")

/-- The anchor template literal of `displaySources`, with the already
escaped target and label substituted. -/
def sourceAnchor (url name : String) : String :=
  "\n                <a href=\"" ++ url ++
  "\" target=\"_blank\" rel=\"noopener noreferrer\" class=\"source-item\">\n                    <svg class=\"source-icon\" viewBox=\"0 0 24 24\" fill=\"none\" stroke=\"currentColor\" stroke-width=\"2\">\n                        <path d=\"M13 2H6a2 2 0 0 0-2 2v16a2 2 0 0 0 2 2h12a2 2 0 0 0 2-2V9z\"></path>\n                        <polyline points=\"13 2 13 9 20 9\"></polyline>\n                    </svg>\n                    <span class=\"source-name\">" ++
  name ++ "</span>\n                </a>\n            "

/-- The per-entry mapping of `displaySources` (`sources.map((source, index)
=> ...)`), carrying the running 0-based index. -/
def sourceItems (index : Nat) : List Source → List String
  | [] => []
  | source :: rest =>
      sourceAnchor (escapeHtml (sourceHref source)) (escapeHtml (sourceLabel index source)) ::
        sourceItems (index + 1) rest

/-- `displaySources`: show the sources container and overwrite the list
region with the joined anchor markup. -/
def displaySources (sources : List Source) (d : UiDom) : UiDom :=
  { d with
    sourcesContainerDisplay := "block"
    sourcesListInner := joinAll (sourceItems 0 sources) }

/-- `displayResult`: hide the loading indicator, show result content, set
the answer text (`data.answer || data.message || fallback`), render the
metadata block when a metadata object is present, and render the source
list when a non-empty sources array is present (hiding the container
otherwise). -/
def displayResult (fmtDate : String → String) (data : SearchResponse) (d : UiDom) : UiDom :=
  let d1 : UiDom :=
    { d with
      loadingStateDisplay := "none"
      resultContentDisplay := "block"
      errorContentDisplay := "none"
      answerTextContent := jsOr data.answer (jsOr data.message "回答が取得できませんでした") }
  let d2 : UiDom :=
    match data.metadata with
    | some md => displayMetadata fmtDate md d1
    | none => d1
  match data.sources with
  | some sources =>
      if sources.length > 0 then displaySources sources d2
      else { d2 with sourcesContainerDisplay := "none" }
  | none => { d2 with sourcesContainerDisplay := "none" }

/-- `displayError`: hide the loading indicator and result content, show the
error content, and set the message (`error.message || fallback`, rewritten
to a connectivity message naming the endpoint when the message contains
"Failed to fetch"). -/
def displayError (cfg : ApiConfig) (e : JsError) (d : UiDom) : UiDom :=
  let errorMsg := if e.message = "" then "エラーが発生しました" else e.message
  let errorMsg :=
    if strIncludes e.message "Failed to fetch" then
      "サーバーに接続できません。\n\nWebhook URLを確認してください:\n" ++ cfg.endpoint
    else errorMsg
  { d with
    loadingStateDisplay := "none"
    resultContentDisplay := "none"
    errorContentDisplay := "block"
    errorMessageContent := errorMsg }

/-- The outcome of the single `fetch` call, supplied by the environment:
either the promise rejected with an exception (network failure, or the
abort raised by the timeout signal), or a response arrived with a status,
a status text and a body whose JSON decoding either succeeds or throws. -/
inductive FetchOutcome where
  | rejected (err : JsError)
  | resolved (status : Nat) (statusText : String) (body : Except JsError SearchResponse)
deriving Repr

/-- The body of the `try` block of `callAPI`: `response.ok` is status
200-299; a non-ok status throws the HTTP status error; otherwise the decoded
body (or its decode exception) is the result. -/
def fetchResult (outcome : FetchOutcome) : Except JsError SearchResponse :=
  match outcome with
  | .rejected e => .error e
  | .resolved status statusText body =>
      if 200 ≤ status ∧ status ≤ 299 then body
      else .error { name := "Error", message := "HTTPエラー: " ++ toString status ++ " " ++ statusText }

/-- `callAPI`: run the fetch and status/decode logic; in the `catch`,
an exception named "AbortError" is replaced by the timeout message carrying
the configured duration in seconds, every other exception is rethrown. -/
def callAPI (cfg : ApiConfig) (outcome : FetchOutcome) : Except JsError SearchResponse :=
  match fetchResult outcome with
  | .ok data => .ok data
  | .error e =>
      if e.name = "AbortError" then
        .error { name := "Error"
                 message := "リクエストがタイムアウトしました（" ++ toString (cfg.timeout / 1000) ++ "秒以上）" }
      else .error e

/-- The rejection produced by the web platform when `AbortSignal.timeout`
fires: per the WHATWG DOM standard the signal aborts with a `DOMException`
whose `name` is "TimeoutError" (not "AbortError"), and `fetch` rejects with
that exception; the message text here is representative. -/
def timeoutRejection : JsError :=
  { name := "TimeoutError", message := "signal timed out" }

/-- The request body JSON of `callAPI`. -/
structure SearchRequest where
  query : String
  timestamp : String
deriving DecidableEq, Repr

/-- The observable effects of one `handleSearch` call: the request body
POSTed (if any), the blocking alerts shown, and the final DOM state. -/
structure SearchRun where
  sent : Option SearchRequest
  alerted : List String
  dom : UiDom
deriving DecidableEq, Repr

/-- JavaScript `String.prototype.trim`: strip leading and trailing
whitespace.  (Defined over the character list so that it is computable by
plain reduction.) -/
def jsTrim (s : String) : String :=
  String.mk (((s.data.dropWhile Char.isWhitespace).reverse.dropWhile Char.isWhitespace).reverse)

/-- `handleSearch`: trim the query; when empty, alert and return without
touching the DOM or the network; otherwise show loading, call the API
(sending the trimmed query with the current timestamp), display the result
or the error, and always restore the button state (`finally`). -/
def handleSearch (cfg : ApiConfig) (fmtDate : String → String) (now : String)
    (raw : String) (outcome : FetchOutcome) (d : UiDom) : SearchRun :=
  let query := jsTrim raw
  if query = "" then
    { sent := none, alerted := ["質問を入力してください"], dom := d }
  else
    let d1 := showLoading d
    let d2 :=
      match callAPI cfg outcome with
      | .ok data => displayResult fmtDate data d1
      | .error e => displayError cfg e d1
    { sent := some { query := query, timestamp := now }
      alerted := []
      dom := restoreButtonState d2 }

/-- Refinement-side definition following the amended rendering claim: the
visible label of a source entry is its `name` field when present and
non-empty, else its `title` field when present and non-empty, else the
synthesized 参照 (Reference) label with the 1-based index. -/
def specVisibleLabel (index : Nat) (s : Source) : String :=
  if jsTruthy s.name then s.name.getD ""
  else if jsTruthy s.title then s.title.getD ""
  else "参照 " ++ toString (index + 1)

/-- Refinement-side definition following the amended rendering claim: the
anchor target of a source entry is its `url` field when present and
non-empty, else its `link` field when present and non-empty, else the
placeholder "#". -/
def specTarget (s : Source) : String :=
  if jsTruthy s.url then s.url.getD ""
  else if jsTruthy s.link then s.link.getD ""
  else "#"

/-! Helper lemmas about the JavaScript idioms and the rendering pipeline. -/

theorem jsOr_eq (a : Option String) (b : String) :
    jsOr a b = if jsTruthy a then a.getD "" else b := by
  cases a with
  | none => rfl
  | some s =>
      by_cases hs : s = "" <;> simp [jsOr, jsTruthy, hs]

theorem jsOr_of_truthy {a : Option String} (b : String) (h : jsTruthy a = true) :
    jsOr a b = a.getD "" := by
  rw [jsOr_eq, if_pos h]

theorem jsOr_of_falsy {a : Option String} (b : String) (h : jsTruthy a = false) :
    jsOr a b = b := by
  rw [jsOr_eq, h]
  simp

theorem sourceLabel_eq_spec (index : Nat) (s : Source) :
    sourceLabel index s = specVisibleLabel index s := by
  rw [sourceLabel, specVisibleLabel, jsOr_eq, jsOr_eq]

theorem sourceHref_eq_spec (s : Source) : sourceHref s = specTarget s := by
  rw [sourceHref, specTarget, jsOr_eq, jsOr_eq]

theorem joinAll_append (l1 l2 : List String) :
    joinAll (l1 ++ l2) = joinAll l1 ++ joinAll l2 := by
  induction l1 with
  | nil => simp [joinAll]
  | cons s rest ih => simp [joinAll, ih, String.append_assoc]

theorem sourceItems_length (index : Nat) (ss : List Source) :
    (sourceItems index ss).length = ss.length := by
  induction ss generalizing index with
  | nil => rfl
  | cons s rest ih => simp [sourceItems, ih]

theorem sourceItems_getElem? (index : Nat) (ss : List Source) (j : Nat) :
    (sourceItems index ss)[j]? =
      (ss[j]?).map fun s =>
        sourceAnchor (escapeHtml (sourceHref s)) (escapeHtml (sourceLabel (index + j) s)) := by
  induction ss generalizing index j with
  | nil => simp [sourceItems]
  | cons s rest ih =>
      cases j with
      | zero => simp [sourceItems]
      | succ j =>
          simp only [sourceItems, List.getElem?_cons_succ, ih (index + 1) j]
          have harith : index + 1 + j = index + (j + 1) := by omega
          rw [harith]

theorem displayMetadata_frame (fmtDate : String → String) (md : Metadata) (d : UiDom) :
    ∃ mi, displayMetadata fmtDate md d = { d with metadataInner := mi } := by
  simp only [displayMetadata]
  split
  · exact ⟨_, rfl⟩
  · exact ⟨d.metadataInner, rfl⟩

theorem metadataInner_fileCount (fmtDate : String → String) (md : Metadata) (d : UiDom)
    (v : String) (hv : md.fileCount = some v) :
    ∃ rest, (displayMetadata fmtDate md d).metadataInner = fileCountItem v ++ rest := by
  rcases md with ⟨fc, ts, pt⟩
  cases hv
  simp only [displayMetadata, metadataItems]
  rw [if_pos (by simp)]
  simp only [List.cons_append, List.nil_append, List.append_assoc, joinAll]
  exact ⟨_, rfl⟩

theorem metadataInner_processingTime (fmtDate : String → String) (md : Metadata) (d : UiDom)
    (p : ℚ) (hp : md.processingTime = some p) :
    ∃ pre, (displayMetadata fmtDate md d).metadataInner = pre ++ processingTimeItem p := by
  rcases md with ⟨fc, ts, pt⟩
  cases hp
  simp only [displayMetadata, metadataItems]
  rw [if_pos (by simp)]
  rw [joinAll_append]
  refine ⟨joinAll ((match fc with
    | some v => [fileCountItem v]
    | none => []) ++ (match ts with
    | some t => if t = "" then [] else [timestampItem (fmtDate t)]
    | none => [])), ?_⟩
  simp only [joinAll, String.append_empty]

theorem pad2_length {k : Nat} (hk : k < 100) : (pad2 k).length = 2 := by
  have h : ∀ m : Fin 100, (pad2 m.1).length = 2 := by decide
  exact h ⟨k, hk⟩

theorem toFixed2_nonneg_spec (p : ℚ) (hp : 0 ≤ p) :
    ∃ w f : Nat, toFixed2 p = toString w ++ "." ++ pad2 f ∧ f < 100 ∧
      (pad2 f).length = 2 ∧ |(w : ℚ) + (f : ℚ) / 100 - p| ≤ 1 / 200 := by
  have hnlt : ¬ p < 0 := not_lt.mpr hp
  rw [toFixed2, if_neg hnlt, toFixed2Abs]
  refine ⟨(Int.floor (p * 100 + 1 / 2)).toNat / 100, (Int.floor (p * 100 + 1 / 2)).toNat % 100,
    rfl, Nat.mod_lt _ (by norm_num), pad2_length (Nat.mod_lt _ (by norm_num)), ?_⟩
  set n : Nat := (Int.floor (p * 100 + 1 / 2)).toNat with hn
  have hfl0 : (0 : ℤ) ≤ Int.floor (p * 100 + 1 / 2) :=
    Int.floor_nonneg.mpr (by positivity)
  have hcast : ((n : ℤ)) = Int.floor (p * 100 + 1 / 2) := Int.toNat_of_nonneg hfl0
  have hq : ((n : ℚ)) = ((Int.floor (p * 100 + 1 / 2) : ℤ) : ℚ) := by
    exact_mod_cast hcast
  have h1 : ((Int.floor (p * 100 + 1 / 2) : ℤ) : ℚ) ≤ p * 100 + 1 / 2 :=
    Int.floor_le _
  have h2 : p * 100 + 1 / 2 - 1 < ((Int.floor (p * 100 + 1 / 2) : ℤ) : ℚ) :=
    Int.sub_one_lt_floor _
  have hdm : (100 : ℕ) * (n / 100) + n % 100 = n := Nat.div_add_mod n 100
  have hdmq : (100 : ℚ) * ((n / 100 : ℕ) : ℚ) + ((n % 100 : ℕ) : ℚ) = (n : ℚ) := by
    exact_mod_cast congrArg (fun m : ℕ => (m : ℚ)) hdm
  rw [abs_le]
  constructor
  · nlinarith [hq, h2, hdmq]
  · nlinarith [hq, h1, hdmq]

theorem displayResult_frame (fmtDate : String → String) (data : SearchResponse) (d : UiDom) :
    ∃ mi scd sli,
      displayResult fmtDate data d =
        { d with
          loadingStateDisplay := "none"
          resultContentDisplay := "block"
          errorContentDisplay := "none"
          answerTextContent := jsOr data.answer (jsOr data.message "回答が取得できませんでした")
          metadataInner := mi
          sourcesContainerDisplay := scd
          sourcesListInner := sli } := by
  rcases data with ⟨a, m, md, srcs⟩
  simp only [displayResult]
  cases md with
  | none =>
      cases srcs with
      | none => exact ⟨d.metadataInner, "none", d.sourcesListInner, rfl⟩
      | some ss =>
          dsimp only
          by_cases h : ss.length > 0
          · rw [if_pos h]
            exact ⟨d.metadataInner, "block", joinAll (sourceItems 0 ss), rfl⟩
          · rw [if_neg h]
            exact ⟨d.metadataInner, "none", d.sourcesListInner, rfl⟩
  | some mdv =>
      dsimp only
      obtain ⟨mi, hmi⟩ := displayMetadata_frame fmtDate mdv
        { d with
          loadingStateDisplay := "none"
          resultContentDisplay := "block"
          errorContentDisplay := "none"
          answerTextContent := jsOr a (jsOr m "回答が取得できませんでした") }
      rw [hmi]
      cases srcs with
      | none => exact ⟨mi, "none", d.sourcesListInner, rfl⟩
      | some ss =>
          dsimp only
          by_cases h : ss.length > 0
          · rw [if_pos h]
            exact ⟨mi, "block", joinAll (sourceItems 0 ss), rfl⟩
          · rw [if_neg h]
            exact ⟨mi, "none", d.sourcesListInner, rfl⟩

/-! The claims. -/

/-- C1: for every submission with a non-empty trimmed query and every outcome
of the network call (success, failure, or timeout), the run of `handleSearch`
ends with the loading indicator hidden, the submit button re-enabled with its
idle label restored, and exactly one of the Result or Error regions shown —
the UI is never left in Loading. -/
theorem C1_lifecycle_total (cfg : ApiConfig) (fmtDate : String → String) (now raw : String)
    (outcome : FetchOutcome) (d : UiDom) (h : jsTrim raw ≠ "") :
    (handleSearch cfg fmtDate now raw outcome d).dom.loadingStateDisplay = "none" ∧
    (handleSearch cfg fmtDate now raw outcome d).dom.searchBtnDisabled = false ∧
    (handleSearch cfg fmtDate now raw outcome d).dom.btnTextContent = "検索" ∧
    (((handleSearch cfg fmtDate now raw outcome d).dom.resultContentDisplay = "block" ∧
      (handleSearch cfg fmtDate now raw outcome d).dom.errorContentDisplay = "none") ∨
     ((handleSearch cfg fmtDate now raw outcome d).dom.errorContentDisplay = "block" ∧
      (handleSearch cfg fmtDate now raw outcome d).dom.resultContentDisplay = "none")) := by
  simp only [handleSearch]
  rw [if_neg h]
  cases hc : callAPI cfg outcome with
  | ok data =>
      dsimp only
      obtain ⟨mi, scd, sli, hfr⟩ := displayResult_frame fmtDate data (showLoading d)
      rw [hfr]
      exact ⟨rfl, rfl, rfl, Or.inl ⟨rfl, rfl⟩⟩
  | error e =>
      dsimp only
      exact ⟨rfl, rfl, rfl, Or.inr ⟨rfl, rfl⟩⟩

theorem C1_witness :
    (jsTrim "q" ≠ "") ∧
    ((handleSearch API_CONFIG (fun t => t) "T" "q"
        (.rejected { name := "TypeError", message := "Failed to fetch" }) initialDom).dom.loadingStateDisplay = "none" ∧
     (handleSearch API_CONFIG (fun t => t) "T" "q"
        (.rejected { name := "TypeError", message := "Failed to fetch" }) initialDom).dom.searchBtnDisabled = false ∧
     (handleSearch API_CONFIG (fun t => t) "T" "q"
        (.rejected { name := "TypeError", message := "Failed to fetch" }) initialDom).dom.btnTextContent = "検索" ∧
     (((handleSearch API_CONFIG (fun t => t) "T" "q"
        (.rejected { name := "TypeError", message := "Failed to fetch" }) initialDom).dom.resultContentDisplay = "block" ∧
       (handleSearch API_CONFIG (fun t => t) "T" "q"
        (.rejected { name := "TypeError", message := "Failed to fetch" }) initialDom).dom.errorContentDisplay = "none") ∨
      ((handleSearch API_CONFIG (fun t => t) "T" "q"
        (.rejected { name := "TypeError", message := "Failed to fetch" }) initialDom).dom.errorContentDisplay = "block" ∧
       (handleSearch API_CONFIG (fun t => t) "T" "q"
        (.rejected { name := "TypeError", message := "Failed to fetch" }) initialDom).dom.resultContentDisplay = "none"))) :=
  ⟨by decide, C1_lifecycle_total API_CONFIG (fun t => t) "T" "q"
    (.rejected { name := "TypeError", message := "Failed to fetch" }) initialDom (by decide)⟩

/-- C2: for every input whose trimmed query is empty, `handleSearch` sends no
request, shows the blocking alert, and leaves the presentation state exactly
as it was. -/
theorem C2_empty_query_noop (cfg : ApiConfig) (fmtDate : String → String) (now raw : String)
    (outcome : FetchOutcome) (d : UiDom) (h : jsTrim raw = "") :
    handleSearch cfg fmtDate now raw outcome d =
      { sent := none, alerted := ["質問を入力してください"], dom := d } := by
  simp only [handleSearch]
  rw [if_pos h]

theorem C2_witness :
    handleSearch API_CONFIG (fun t => t) "T" "   " (.rejected timeoutRejection) initialDom =
      { sent := none, alerted := ["質問を入力してください"], dom := initialDom } :=
  C2_empty_query_noop API_CONFIG (fun t => t) "T" "   " (.rejected timeoutRejection) initialDom rfl

/-- A concrete run in which the fetch is abandoned by the configured timeout:
the platform rejects with its `TimeoutError` exception. -/
def timeoutRun : SearchRun :=
  handleSearch API_CONFIG (fun t => t) "2026-01-01T00:00:00.000Z" "What is the refund policy?"
    (.rejected timeoutRejection) initialDom

/-- C3 (code bug): a fetch abandoned by `AbortSignal.timeout` rejects with an
exception named "TimeoutError", but the catch of `callAPI` tests for the name
"AbortError", so the raw platform message reaches the Error state and the
surfaced message does not contain the configured 30-second duration; the
duration-bearing message is produced only for an exception actually named
"AbortError" (a branch the timeout path never takes). -/
theorem C3_timeout_message_bug :
    callAPI API_CONFIG (.rejected timeoutRejection) = .error timeoutRejection ∧
    timeoutRun.dom.errorContentDisplay = "block" ∧
    timeoutRun.dom.errorMessageContent = "signal timed out" ∧
    strIncludes timeoutRun.dom.errorMessageContent "30" = false ∧
    callAPI API_CONFIG (.rejected { name := "AbortError", message := "The operation was aborted" }) =
      .error { name := "Error", message := "リクエストがタイムアウトしました（30秒以上）" } :=
  ⟨rfl, rfl, rfl, rfl, rfl⟩

/-- C8: a response with a non-2xx status makes the request client fail with
the HTTP status error carrying the status code and status text, and a mocked
HTTP 500 response ends in the Error state with a message containing "500". -/
theorem C8_http_status_error (cfg : ApiConfig) (status : Nat) (statusText : String)
    (body : Except JsError SearchResponse) (h : ¬(200 ≤ status ∧ status ≤ 299))
    (fmtDate : String → String) (now raw : String) (d : UiDom) (hq : jsTrim raw ≠ "") :
    callAPI cfg (.resolved status statusText body) =
      .error { name := "Error", message := "HTTPエラー: " ++ toString status ++ " " ++ statusText } ∧
    (handleSearch cfg fmtDate now raw
        (.resolved 500 "Internal Server Error" body) d).dom.errorContentDisplay = "block" ∧
    strIncludes (handleSearch cfg fmtDate now raw
        (.resolved 500 "Internal Server Error" body) d).dom.errorMessageContent "500" = true := by
  have hgen : ∀ st : Nat, ∀ stx : String, ¬(200 ≤ st ∧ st ≤ 299) →
      callAPI cfg (.resolved st stx body) =
        .error { name := "Error", message := "HTTPエラー: " ++ toString st ++ " " ++ stx } := by
    intro st stx hst
    simp only [callAPI, fetchResult]
    rw [if_neg hst]
    rfl
  have h500 := hgen 500 "Internal Server Error" (by omega)
  refine ⟨hgen status statusText h, ?_, ?_⟩
  · simp only [handleSearch]
    rw [if_neg hq, h500]
    rfl
  · simp only [handleSearch]
    rw [if_neg hq, h500]
    rfl

theorem C8_witness :
    (¬(200 ≤ 500 ∧ 500 ≤ 299)) ∧ (jsTrim "q" ≠ "") ∧
    (callAPI API_CONFIG (.resolved 500 "Internal Server Error" (.ok ⟨none, none, none, none⟩)) =
      .error { name := "Error", message := "HTTPエラー: " ++ toString 500 ++ " " ++ "Internal Server Error" } ∧
     (handleSearch API_CONFIG (fun t => t) "T" "q"
        (.resolved 500 "Internal Server Error" (.ok ⟨none, none, none, none⟩)) initialDom).dom.errorContentDisplay = "block" ∧
     strIncludes (handleSearch API_CONFIG (fun t => t) "T" "q"
        (.resolved 500 "Internal Server Error" (.ok ⟨none, none, none, none⟩)) initialDom).dom.errorMessageContent "500" = true) :=
  ⟨by omega, by decide,
    C8_http_status_error API_CONFIG 500 "Internal Server Error" (.ok ⟨none, none, none, none⟩)
      (by omega) (fun t => t) "T" "q" initialDom (by decide)⟩

/-- The sources step of `displayResult`, isolated: whatever the metadata
step produced, the final state is the sources branch applied to it. -/
theorem displayResult_eq_sources_step (fmtDate : String → String) (a m : Option String)
    (md : Option Metadata) (srcs : Option (List Source)) (d : UiDom) :
    ∃ d2 : UiDom,
      displayResult fmtDate { answer := a, message := m, metadata := md, sources := srcs } d =
        (match srcs with
         | some ss =>
             if ss.length > 0 then displaySources ss d2
             else { d2 with sourcesContainerDisplay := "none" }
         | none => { d2 with sourcesContainerDisplay := "none" }) := by
  simp only [displayResult]
  cases md with
  | none => exact ⟨_, rfl⟩
  | some mdv => exact ⟨_, rfl⟩

/-- C4 counterexample: a markup-bearing externally supplied `fileCount`
value is interpolated into the metadata region without escaping — the
rendered content contains the raw markup and not the HTML-escaped form of
the input. -/
theorem C4_counterexample :
    (displayMetadata (fun t => t)
        { fileCount := some "<b>x</b>", timestamp := none, processingTime := none }
        initialDom).metadataInner =
      "<div class=\"metadata-item\">📄 <b>x</b>件のファイルを参照</div>" ∧
    escapeHtml "<b>x</b>" = "&lt;b&gt;x&lt;/b&gt;" ∧
    strIncludes ((displayMetadata (fun t => t)
        { fileCount := some "<b>x</b>", timestamp := none, processingTime := none }
        initialDom).metadataInner) "&lt;" = false :=
  ⟨rfl, rfl, rfl⟩

/-- C4 (amended): every source name and source URL is rendered through
`escapeHtml`, while a metadata value (`fileCount`) is embedded verbatim,
unescaped, in its item. -/
theorem C4_escaping (ss : List Source) (j : Nat) (s : Source) (hs : ss[j]? = some s)
    (fmtDate : String → String) (md : Metadata) (v : String) (hv : md.fileCount = some v)
    (d2 : UiDom) :
    (sourceItems 0 ss)[j]? =
      some (sourceAnchor (escapeHtml (sourceHref s)) (escapeHtml (sourceLabel j s))) ∧
    ∃ rest, (displayMetadata fmtDate md d2).metadataInner = fileCountItem v ++ rest := by
  constructor
  · rw [sourceItems_getElem?, hs]
    dsimp only [Option.map]
    rw [Nat.zero_add]
  · exact metadataInner_fileCount fmtDate md d2 v hv

theorem C4_witness :
    (sourceItems 0 [⟨some "Policy Doc", none, some "https://x/policy", none⟩])[0]? =
      some (sourceAnchor
        (escapeHtml (sourceHref ⟨some "Policy Doc", none, some "https://x/policy", none⟩))
        (escapeHtml (sourceLabel 0 ⟨some "Policy Doc", none, some "https://x/policy", none⟩))) ∧
    ∃ rest, (displayMetadata (fun t => t) ⟨some "3", none, none⟩
        initialDom).metadataInner = fileCountItem "3" ++ rest :=
  C4_escaping [⟨some "Policy Doc", none, some "https://x/policy", none⟩] 0
    ⟨some "Policy Doc", none, some "https://x/policy", none⟩
    rfl (fun t => t) ⟨some "3", none, none⟩ "3" rfl initialDom

/-- C5 counterexample: a response that contains an `answer` field holding
the empty string displays the `message` field instead — the answer field is
present but is not what is displayed. -/
theorem C5_counterexample :
    (displayResult (fun t => t)
        { answer := some "", message := some "hello", metadata := none, sources := none }
        initialDom).answerTextContent = "hello" ∧ ("hello" : String) ≠ "" :=
  ⟨rfl, by decide⟩

/-- C5 (amended): the displayed answer is the `answer` field when present
and non-empty, else the `message` field when present and non-empty, else
the fixed fallback string. -/
theorem C5_answer_precedence (fmtDate : String → String) (data : SearchResponse) (d : UiDom) :
    (jsTruthy data.answer = true →
      (displayResult fmtDate data d).answerTextContent = data.answer.getD "") ∧
    (jsTruthy data.answer = false → jsTruthy data.message = true →
      (displayResult fmtDate data d).answerTextContent = data.message.getD "") ∧
    (jsTruthy data.answer = false → jsTruthy data.message = false →
      (displayResult fmtDate data d).answerTextContent = "回答が取得できませんでした") := by
  obtain ⟨mi, scd, sli, hfr⟩ := displayResult_frame fmtDate data d
  rw [hfr]
  dsimp only
  refine ⟨fun h1 => ?_, fun h1 h2 => ?_, fun h1 h2 => ?_⟩
  · rw [jsOr_of_truthy _ h1]
  · rw [jsOr_of_falsy _ h1, jsOr_of_truthy _ h2]
  · rw [jsOr_of_falsy _ h1, jsOr_of_falsy _ h2]

theorem C5_witness :
    (displayResult (fun t => t)
        { answer := none, message := some "30 days", metadata := none, sources := none }
        initialDom).answerTextContent = "30 days" :=
  (C5_answer_precedence (fun t => t)
      { answer := none, message := some "30 days", metadata := none, sources := none }
      initialDom).2.1 rfl rfl

/-- C6 counterexample: a source entry whose `name` field is present but
empty is rendered with its `title` as the visible label, not with the
`name` field. -/
theorem C6_counterexample :
    (displaySources [{ name := some "", title := some "T", url := none, link := none }]
        initialDom).sourcesListInner = sourceAnchor "#" "T" ∧ ("T" : String) ≠ "" :=
  ⟨rfl, by decide⟩

/-- C6 (amended): with a present non-empty sources array the container is
shown and entry `i` renders exactly one link whose visible label is `name`
when present and non-empty, else `title` when present and non-empty, else
the synthesized 参照 (Reference) label with 1-based index, and whose target
is `url` when present and non-empty, else `link` when present and
non-empty, else the placeholder "#"; with the array absent or empty the
sources region is hidden. -/
theorem C6_source_rendering (fmtDate : String → String) (data : SearchResponse) (d : UiDom) :
    ((data.sources = none ∨ data.sources = some []) →
        (displayResult fmtDate data d).sourcesContainerDisplay = "none") ∧
    (∀ ss, data.sources = some ss → ss ≠ [] →
        (displayResult fmtDate data d).sourcesContainerDisplay = "block" ∧
        (displayResult fmtDate data d).sourcesListInner = joinAll (sourceItems 0 ss) ∧
        (sourceItems 0 ss).length = ss.length ∧
        ∀ j s, ss[j]? = some s →
          (sourceItems 0 ss)[j]? =
            some (sourceAnchor (escapeHtml (specTarget s)) (escapeHtml (specVisibleLabel j s)))) := by
  rcases data with ⟨a, m, md, srcs⟩
  obtain ⟨d2, hd2⟩ := displayResult_eq_sources_step fmtDate a m md srcs d
  rw [hd2]
  constructor
  · rintro (h | h)
    · cases h
      rfl
    · cases h
      dsimp only
      rw [if_neg (by simp)]
  · intro ss hss hne
    cases hss
    dsimp only
    rw [if_pos (List.length_pos.mpr hne)]
    refine ⟨rfl, rfl, sourceItems_length 0 ss, ?_⟩
    intro j s hs
    rw [sourceItems_getElem?, hs]
    dsimp only [Option.map]
    rw [Nat.zero_add, sourceLabel_eq_spec, sourceHref_eq_spec]

theorem C6_witness :
    (displayResult (fun t => t)
        ⟨some "30 days", none, none, some [⟨some "Policy Doc", none, some "https://x/policy", none⟩]⟩
        initialDom).sourcesContainerDisplay = "block" :=
  ((C6_source_rendering (fun t => t)
      ⟨some "30 days", none, none, some [⟨some "Policy Doc", none, some "https://x/policy", none⟩]⟩
      initialDom).2
    [⟨some "Policy Doc", none, some "https://x/policy", none⟩]
    rfl (by simp)).1

/-- C7 counterexample: a source entry whose URL is the unsafe
`javascript:alert(1)` is rendered with that supplied URL as the anchor
target — no safety check replaces it with the placeholder. -/
theorem C7_counterexample :
    (displaySources [⟨none, none, some "javascript:alert(1)", none⟩]
        initialDom).sourcesListInner = sourceAnchor "javascript:alert(1)" "参照 1" ∧
    ("javascript:alert(1)" : String) ≠ "#" :=
  ⟨rfl, by decide⟩

/-- C7 (amended): the anchor target falls back to the non-navigating
placeholder "#" exactly when both the `url` and `link` fields are absent or
empty; a supplied URL is escaped but used as-is. -/
theorem C7_placeholder_when_absent (s : Source) (h1 : jsTruthy s.url = false)
    (h2 : jsTruthy s.link = false) (ss : List Source) (j : Nat) (hs : ss[j]? = some s) :
    sourceHref s = "#" ∧
    (sourceItems 0 ss)[j]? = some (sourceAnchor "#" (escapeHtml (sourceLabel j s))) := by
  have hh : sourceHref s = "#" := by
    rw [sourceHref, jsOr_of_falsy _ h1, jsOr_of_falsy _ h2]
  refine ⟨hh, ?_⟩
  rw [sourceItems_getElem?, hs]
  dsimp only [Option.map]
  rw [Nat.zero_add, hh]
  rfl

theorem C7_witness :
    sourceHref ⟨some "Doc", none, none, none⟩ = "#" ∧
    (sourceItems 0 [⟨some "Doc", none, none, none⟩])[0]? =
      some (sourceAnchor "#" (escapeHtml (sourceLabel 0 ⟨some "Doc", none, none, none⟩))) :=
  C7_placeholder_when_absent ⟨some "Doc", none, none, none⟩
    rfl rfl [⟨some "Doc", none, none, none⟩] 0 rfl

/-- C9: a present `fileCount` is embedded verbatim in its rendered item,
and a present non-negative `processingTime` is rendered with exactly two
digits after the decimal point, the printed value being within half a
hundredth of the supplied value (rounding to two decimal places). -/
theorem C9_metadata_formatting (fmtDate : String → String) (md : Metadata) (d : UiDom) :
    (∀ v, md.fileCount = some v →
        ∃ rest, (displayMetadata fmtDate md d).metadataInner = fileCountItem v ++ rest) ∧
    (∀ p : ℚ, md.processingTime = some p → 0 ≤ p →
        ∃ (w f : Nat) (pre : String),
          (displayMetadata fmtDate md d).metadataInner =
            pre ++ ("<div class=\"metadata-item\">⚡ " ++ (toString w ++ "." ++ pad2 f) ++ "秒</div>") ∧
          f < 100 ∧ (pad2 f).length = 2 ∧ |(w : ℚ) + (f : ℚ) / 100 - p| ≤ 1 / 200) := by
  constructor
  · intro v hv
    exact metadataInner_fileCount fmtDate md d v hv
  · intro p hp hp0
    obtain ⟨pre, hpre⟩ := metadataInner_processingTime fmtDate md d p hp
    obtain ⟨w, f, hwf, hf, hlen, hclose⟩ := toFixed2_nonneg_spec p hp0
    refine ⟨w, f, pre, ?_, hf, hlen, hclose⟩
    rw [hpre, processingTimeItem, hwf]

theorem C9_witness :
    (∃ rest, (displayMetadata (fun t => t)
        { fileCount := some "3", timestamp := none, processingTime := some (123 / 100 : ℚ) }
        initialDom).metadataInner = fileCountItem "3" ++ rest) ∧
    (∃ (w f : Nat) (pre : String),
        (displayMetadata (fun t => t)
          { fileCount := some "3", timestamp := none, processingTime := some (123 / 100 : ℚ) }
          initialDom).metadataInner =
            pre ++ ("<div class=\"metadata-item\">⚡ " ++ (toString w ++ "." ++ pad2 f) ++ "秒</div>") ∧
        f < 100 ∧ (pad2 f).length = 2 ∧ |(w : ℚ) + (f : ℚ) / 100 - (123 / 100 : ℚ)| ≤ 1 / 200) :=
  ⟨(C9_metadata_formatting (fun t => t)
      { fileCount := some "3", timestamp := none, processingTime := some (123 / 100 : ℚ) }
      initialDom).1 "3" rfl,
   (C9_metadata_formatting (fun t => t)
      { fileCount := some "3", timestamp := none, processingTime := some (123 / 100 : ℚ) }
      initialDom).2 (123 / 100 : ℚ) rfl (by norm_num)⟩

/-- C10: when the metadata object is present but has none of the recognized
fields, the metadata region keeps its previous content (it is not cleared),
while the new Result state is shown. -/
theorem C10_empty_metadata_preserved (fmtDate : String → String) (data : SearchResponse)
    (d : UiDom)
    (hm : data.metadata = some { fileCount := none, timestamp := none, processingTime := none }) :
    (displayResult fmtDate data d).metadataInner = d.metadataInner ∧
    (displayResult fmtDate data d).resultContentDisplay = "block" := by
  rcases data with ⟨a, m, md, srcs⟩
  cases hm
  constructor
  · simp only [displayResult]
    cases srcs with
    | none => rfl
    | some ss =>
        dsimp only
        by_cases h : ss.length > 0
        · rw [if_pos h]
          rfl
        · rw [if_neg h]
          rfl
  · obtain ⟨mi, scd, sli, hfr⟩ := displayResult_frame fmtDate
      { answer := a, message := m,
        metadata := some { fileCount := none, timestamp := none, processingTime := none },
        sources := srcs } d
    rw [hfr]

theorem C10_witness :
    (displayResult (fun t => t)
        { answer := some "A", message := none,
          metadata := some { fileCount := none, timestamp := none, processingTime := none },
          sources := none }
        { initialDom with metadataInner := "<div>old</div>" }).metadataInner = "<div>old</div>" ∧
    (displayResult (fun t => t)
        { answer := some "A", message := none,
          metadata := some { fileCount := none, timestamp := none, processingTime := none },
          sources := none }
        { initialDom with metadataInner := "<div>old</div>" }).resultContentDisplay = "block" :=
  C10_empty_metadata_preserved (fun t => t)
    { answer := some "A", message := none,
      metadata := some { fileCount := none, timestamp := none, processingTime := none },
      sources := none }
    { initialDom with metadataInner := "<div>old</div>" } rfl

end KnowledgeSearch
